import Mathlib

/-!
Shallow embedding of `src/arithmetic-interpreter.py` (the terminal, most
complete variant of the repository): a lexer producing tokens from a
character list and a recursive-descent parser/evaluator (`expr`, `term`,
`factor`) that computes a numeric result while recognising the grammar

  expr   := term ((PLUS | MINUS) term)*
  term   := factor ((MULTIPLY | DIVIDE) factor)*
  factor := INTEGER | LPAREN expr RPAREN

Modelling decisions, each noted at the definition it concerns:
* Python exceptions (`IndexError`, `AttributeError`, `TypeError`,
  `ZeroDivisionError`, the two explicit `raise Exception(...)` sites) are
  values of `PyErr`; a function that can raise returns `Except PyErr _`.
* Numeric results are exact rationals (`PyNum`): Python promotes to `float`
  on division, and the specification (§9) leaves the numeric representation
  open between floating point and an exact rational/decimal type; we take
  the exact-rational reading.  All concrete computations below are exact in
  either reading.
* Python `None` (which `expr` and `factor` can return) is `Option.none`;
  evaluator results therefore have type `Option PyNum`.
* The mutually recursive grammar rules and their `while` loops take a fuel
  argument; `.outOfFuel` marks exhaustion and never occurs at the fuel used
  in the theorems.  The `while` loop of `get_token`, by contrast, repeats
  with *unchanged* state when the current character is unrecognised (not a
  digit, not an operator, not whitespace), i.e. the Python function never
  returns; that provable divergence is represented by the distinguished
  outcome `.infiniteLoop`.
-/

namespace ArithInterp

/-- Outcomes of the Python exceptions the program can raise, plus the two
model-level markers described in the header comment. -/
inductive PyErr where
  /-- `IndexError` from `self.user_input[self.pos]` in `Lexer.__init__`
  when the input is empty. -/
  | indexError
  /-- `AttributeError` from `self.current_char.isdigit()` in `get_token`
  when `skip_whitespace` has run off the end of the input. -/
  | attributeError
  /-- `raise Exception("Error parsing input: get_token()")`. -/
  | getTokenError
  /-- `raise Exception("Error parsing input: eat()")`. -/
  | eatError
  /-- `TypeError` from arithmetic on `None`. -/
  | typeError
  /-- `ZeroDivisionError` from `/` with zero right operand. -/
  | zeroDivisionError
  /-- The `while` loop of `get_token` repeats forever with unchanged state
  (unrecognised character): the Python call never returns. -/
  | infiniteLoop
  /-- Parser fuel exhausted (model artefact, never occurs at the fuel used
  in the theorems). -/
  | outOfFuel
deriving DecidableEq

/-- `class TokenTypes(Enum)` of the source. -/
inductive TokenTypes where
  | INTEGER
  | PLUS
  | MINUS
  | MULTIPLY
  | DIVIDE
  | EOF
  | LPAREN
  | RPAREN
deriving DecidableEq

/-- The `value` field of the `Token` dataclass: an `int` for `INTEGER`
tokens, the matched character for operator/parenthesis tokens, Python
`None` for the `EOF` token. -/
inductive TokenValue where
  | int (n : Nat)
  | str (c : Char)
  | none
deriving DecidableEq

/-- The `Token` dataclass of the source. -/
structure Token where
  token_type : TokenTypes
  value : TokenValue
deriving DecidableEq

/-- Exact rational numbers representing the Python numeric results
(`int`, promoted to `float` by `/`): a normalised fraction `num / den`
with `den > 0` for every value actually constructed. -/
structure PyNum where
  num : Int
  den : Nat
deriving DecidableEq

/-- Normalised fraction `n / d` (for `d > 0`); divides out `Nat.gcd`. -/
def PyNum.normalize (n : Int) (d : Nat) : PyNum :=
  let g : Nat := Nat.gcd n.natAbs d
  if g = 0 then ⟨0, 0⟩ else ⟨n / (g : Int), d / g⟩

/-- The Python `int` value `n` as a `PyNum`. -/
def PyNum.ofNat (n : Nat) : PyNum := ⟨(n : Int), 1⟩

/-- Python `+` on numbers. -/
def PyNum.add (a b : PyNum) : PyNum :=
  PyNum.normalize (a.num * (b.den : Int) + b.num * (a.den : Int)) (a.den * b.den)

/-- Python `-` on numbers. -/
def PyNum.sub (a b : PyNum) : PyNum :=
  PyNum.normalize (a.num * (b.den : Int) - b.num * (a.den : Int)) (a.den * b.den)

/-- Python `*` on numbers. -/
def PyNum.mul (a b : PyNum) : PyNum :=
  PyNum.normalize (a.num * b.num) (a.den * b.den)

/-- Python `/` on numbers (true division; the zero check of the caller has
already ruled out `b = 0`). -/
def PyNum.div (a b : PyNum) : PyNum :=
  let n : Int := a.num * (b.den : Int)
  let d : Int := (a.den : Int) * b.num
  if d < 0 then PyNum.normalize (-n) (-d).toNat else PyNum.normalize n d.toNat

/-- Python `str.isspace` restricted to the ASCII whitespace characters
(the only whitespace occurring in the inputs considered). -/
def pyIsSpace (c : Char) : Bool :=
  c = ' ' || c = '\t' || c = '\n' || c = '\r' || c.toNat = 11 || c.toNat = 12

/-- Python `str.isdigit` restricted to ASCII: the decimal digits 0-9. -/
def pyIsDigit (c : Char) : Bool :=
  48 ≤ c.toNat && c.toNat ≤ 57

/-- Python `int(s)` on a string of decimal digits (the string modelled as
its character list). -/
def pyInt (s : List Char) : Nat :=
  s.foldl (fun n c => n * 10 + (c.toNat - 48)) 0

/-- The `operations` dict of `get_token`, as a partial map from the
current character to the token type. -/
def operations (c : Char) : Option TokenTypes :=
  if c = '+' then some TokenTypes.PLUS
  else if c = '-' then some TokenTypes.MINUS
  else if c = '*' then some TokenTypes.MULTIPLY
  else if c = '/' then some TokenTypes.DIVIDE
  else if c = '(' then some TokenTypes.LPAREN
  else if c = ')' then some TokenTypes.RPAREN
  else Option.none

/-- The mutable state of `class Lexer`: the input text, the position, and
the stored current character (`None` once past the end). -/
structure Lexer where
  user_input : List Char
  pos : Nat
  current_char : Option Char
deriving DecidableEq

/-- `Lexer.__init__`: sets `pos = 0` and reads `user_input[0]`, which
raises `IndexError` when the input is empty. -/
def Lexer.init (s : List Char) : Except PyErr Lexer :=
  match s with
  | [] => .error .indexError
  | c :: _ => .ok ⟨s, 0, some c⟩

/-- `Lexer.move_forward`: increment `pos`; refresh `current_char`, or set
it to `None` once `pos` has reached the end. -/
def Lexer.move_forward (l : Lexer) : Lexer :=
  let pos := l.pos + 1
  if pos ≥ l.user_input.length then ⟨l.user_input, pos, Option.none⟩
  else ⟨l.user_input, pos, l.user_input.get? pos⟩

/-- The loop of `Lexer.skip_whitespace`, with an explicit iteration bound.
Each iteration moves `pos` forward, so `user_input.length + 1 - pos`
iterations always suffice; the wrapper below supplies that bound. -/
def skipWhitespaceGo : Nat → Lexer → Lexer
  | 0, l => l
  | fuel + 1, l =>
    match l.current_char with
    | some c => if pyIsSpace c then skipWhitespaceGo fuel l.move_forward else l
    | Option.none => l

/-- `Lexer.skip_whitespace`: advance while the current character is
whitespace. -/
def Lexer.skip_whitespace (l : Lexer) : Lexer :=
  skipWhitespaceGo (l.user_input.length + 1 - l.pos) l

/-- The digit-consuming loop of `Lexer.integer`, accumulating the matched
characters (`integer_value += self.current_char`); bounded like
`skipWhitespaceGo`. -/
def integerGo : Nat → Lexer → List Char → List Char × Lexer
  | 0, l, acc => (acc, l)
  | fuel + 1, l, acc =>
    match l.current_char with
    | some c =>
      if pyIsDigit c then integerGo fuel l.move_forward (acc ++ [c]) else (acc, l)
    | Option.none => (acc, l)

/-- `Lexer.integer`: consume the maximal run of digits and return the
`INTEGER` token carrying `int(integer_value)`. -/
def Lexer.integer (l : Lexer) : Token × Lexer :=
  let p := integerGo (l.user_input.length + 1 - l.pos) l []
  (⟨TokenTypes.INTEGER, TokenValue.int (pyInt p.1)⟩, p.2)

/-- `Lexer.get_token`.  The Python body is a `while self.current_char is
not None` loop; one iteration skips whitespace and then either returns a
token, crashes (`None.isdigit()` when skipping ran off the end), or — for
an unrecognised character — falls through to the next iteration with the
state completely unchanged, so the loop never terminates (`.infiniteLoop`).
When the loop is never entered (`current_char` is `None`),
`is_end_of_file()` yields the `EOF` token if `pos` is past the end, and
otherwise the function raises (`.getTokenError`, unreachable in fact). -/
def Lexer.get_token (l : Lexer) : Except PyErr (Token × Lexer) :=
  match l.current_char with
  | some _ =>
    let l' := l.skip_whitespace
    match l'.current_char with
    | some c =>
      if pyIsDigit c then .ok l'.integer
      else
        match operations c with
        | some tt => .ok (⟨tt, TokenValue.str c⟩, l'.move_forward)
        | Option.none => .error .infiniteLoop
    | Option.none => .error .attributeError
  | Option.none =>
    if l.user_input.length ≤ l.pos then .ok (⟨TokenTypes.EOF, TokenValue.none⟩, l)
    else .error .getTokenError

/-- The mutable state of `class Interpreter`: the lexer and the single
look-ahead token. -/
structure Interpreter where
  lexer : Lexer
  current_token : Token
deriving DecidableEq

/-- `Interpreter.__init__`: bind the lexer and pull the first token. -/
def Interpreter.init (l : Lexer) : Except PyErr Interpreter :=
  match l.get_token with
  | .ok (t, l') => .ok ⟨l', t⟩
  | .error e => .error e

/-- `Interpreter.eat`: if the look-ahead's type is among `args`, replace it
with the next token; otherwise raise. -/
def Interpreter.eat (args : List TokenTypes) (i : Interpreter) : Except PyErr Interpreter :=
  if i.current_token.token_type ∈ args then
    match i.lexer.get_token with
    | .ok (t, l') => .ok ⟨l', t⟩
    | .error e => .error e
  else .error .eatError

/-- `token.value` as the Python value `factor` returns for an `INTEGER`
token (always an `int` there; the other constructors are unreachable in
that position). -/
def TokenValue.toVal : TokenValue → Option PyNum
  | TokenValue.int n => some (PyNum.ofNat n)
  | TokenValue.str _ => Option.none
  | TokenValue.none => Option.none

/-- Python `result + self.term()`: `TypeError` when either side is `None`. -/
def pyAdd : Option PyNum → Option PyNum → Except PyErr (Option PyNum)
  | some a, some b => .ok (some (a.add b))
  | _, _ => .error .typeError

/-- Python `result - self.term()`. -/
def pySub : Option PyNum → Option PyNum → Except PyErr (Option PyNum)
  | some a, some b => .ok (some (a.sub b))
  | _, _ => .error .typeError

/-- Python `result * self.factor()`. -/
def pyMul : Option PyNum → Option PyNum → Except PyErr (Option PyNum)
  | some a, some b => .ok (some (a.mul b))
  | _, _ => .error .typeError

/-- Python `result / self.factor()`: `TypeError` on `None`, then
`ZeroDivisionError` on a zero divisor. -/
def pyDiv : Option PyNum → Option PyNum → Except PyErr (Option PyNum)
  | some a, some b =>
    if b.num = 0 then .error .zeroDivisionError else .ok (some (a.div b))
  | _, _ => .error .typeError

mutual

/-- `Interpreter.factor`.  Note the faithful absence of an `else` branch:
for a look-ahead that is neither `INTEGER` nor `LPAREN` the Python method
falls off the end and returns `None`. -/
def factor : Nat → Interpreter → Except PyErr (Option PyNum × Interpreter)
  | 0, _ => .error .outOfFuel
  | fuel + 1, i =>
    let token := i.current_token
    if token.token_type = TokenTypes.INTEGER then
      match i.eat [TokenTypes.INTEGER] with
      | .ok i' => .ok (token.value.toVal, i')
      | .error e => .error e
    else if token.token_type = TokenTypes.LPAREN then
      match i.eat [TokenTypes.LPAREN] with
      | .ok i' =>
        match expr fuel i' with
        | .ok (result, i'') =>
          match i''.eat [TokenTypes.RPAREN] with
          | .ok i3 => .ok (result, i3)
          | .error e => .error e
        | .error e => .error e
      | .error e => .error e
    else .ok (Option.none, i)

/-- `Interpreter.term`: one `factor`, then the `while` loop below. -/
def term : Nat → Interpreter → Except PyErr (Option PyNum × Interpreter)
  | 0, _ => .error .outOfFuel
  | fuel + 1, i =>
    match factor fuel i with
    | .ok (result, i') => termLoop fuel result i'
    | .error e => .error e

/-- The `while self.current_token.token_type in (MULTIPLY, DIVIDE)` loop
of `Interpreter.term`. -/
def termLoop : Nat → Option PyNum → Interpreter → Except PyErr (Option PyNum × Interpreter)
  | 0, _, _ => .error .outOfFuel
  | fuel + 1, result, i =>
    if i.current_token.token_type = TokenTypes.MULTIPLY then
      match i.eat [TokenTypes.MULTIPLY] with
      | .ok i' =>
        match factor fuel i' with
        | .ok (f, i'') =>
          match pyMul result f with
          | .ok result' => termLoop fuel result' i''
          | .error e => .error e
        | .error e => .error e
      | .error e => .error e
    else if i.current_token.token_type = TokenTypes.DIVIDE then
      match i.eat [TokenTypes.DIVIDE] with
      | .ok i' =>
        match factor fuel i' with
        | .ok (f, i'') =>
          match pyDiv result f with
          | .ok result' => termLoop fuel result' i''
          | .error e => .error e
        | .error e => .error e
      | .error e => .error e
    else .ok (result, i)

/-- `Interpreter.expr`: one `term`; then the early return
`if self.current_token.token_type == TokenTypes.EOF: return`, whose bare
`return` yields Python `None`; then the `while` loop below. -/
def expr : Nat → Interpreter → Except PyErr (Option PyNum × Interpreter)
  | 0, _ => .error .outOfFuel
  | fuel + 1, i =>
    match term fuel i with
    | .ok (result, i') =>
      if i'.current_token.token_type = TokenTypes.EOF then .ok (Option.none, i')
      else exprLoop fuel result i'
    | .error e => .error e

/-- The `while self.current_token.token_type in (PLUS, MINUS)` loop of
`Interpreter.expr`. -/
def exprLoop : Nat → Option PyNum → Interpreter → Except PyErr (Option PyNum × Interpreter)
  | 0, _, _ => .error .outOfFuel
  | fuel + 1, result, i =>
    if i.current_token.token_type = TokenTypes.PLUS then
      match i.eat [TokenTypes.PLUS] with
      | .ok i' =>
        match term fuel i' with
        | .ok (t, i'') =>
          match pyAdd result t with
          | .ok result' => exprLoop fuel result' i''
          | .error e => .error e
        | .error e => .error e
      | .error e => .error e
    else if i.current_token.token_type = TokenTypes.MINUS then
      match i.eat [TokenTypes.MINUS] with
      | .ok i' =>
        match term fuel i' with
        | .ok (t, i'') =>
          match pySub result t with
          | .ok result' => exprLoop fuel result' i''
          | .error e => .error e
        | .error e => .error e
      | .error e => .error e
    else .ok (result, i)

end

/-- One evaluation call as the driver performs it (`Evaluate` of the
specification): construct the `Lexer` over the text, construct the
`Interpreter` (which pulls the first token), and run `expr`; the result is
Python `None` or a number, or the raised exception. -/
def interpret (fuel : Nat) (s : String) : Except PyErr (Option PyNum) :=
  match Lexer.init s.data with
  | .ok l =>
    match Interpreter.init l with
    | .ok i =>
      match expr fuel i with
      | .ok (result, _) => .ok result
      | .error e => .error e
    | .error e => .error e
  | .error e => .error e

/-- Decidable equality for `Except`, so that concrete runs of the model
can be checked by `decide`. -/
instance {ε α : Type} [DecidableEq ε] [DecidableEq α] : DecidableEq (Except ε α) := by
  intro a b
  cases a <;> cases b
  case ok.ok x y =>
    exact if h : x = y then .isTrue (by rw [h]) else .isFalse (by simp [h])
  case error.error x y =>
    exact if h : x = y then .isTrue (by rw [h]) else .isFalse (by simp [h])
  case ok.error x y => exact .isFalse (by simp)
  case error.ok x y => exact .isFalse (by simp)

/-- Claim C1 (code bug): the claim says `Evaluate("a + b") = a + b` and
symmetrically for `-`, `*`, `/`; it fails for `*` and `/`, because when the
whole input is a single `term` the early return of `expr` discards the
computed result and yields Python `None`: `Evaluate("7 * 2")` and
`Evaluate("6 / 2")` return `None`, not `14` and `3`.  The `+` and `-`
cases do return the sum and difference (the `EOF` check precedes the
add/subtract loop). -/
theorem mul_div_at_top_level_returns_none :
    interpret 100 "7 * 2" = .ok Option.none ∧
    interpret 100 "6 / 2" = .ok Option.none ∧
    interpret 100 "7 + 2" = .ok (some (PyNum.ofNat 9)) ∧
    interpret 100 "7 - 2" = .ok (some (PyNum.ofNat 5)) :=
  ⟨by decide, by decide, by decide, by decide⟩

/-- Claim C2 (code bug): the claim says `Evaluate("(7 + 3) * 2") = 20` and
`Evaluate("((1 + 2) * (3 + 4))") = 21`; in fact both inputs are single
`term`s, so the early return of `expr` discards the correctly computed
values (`20` and `21`) and yields Python `None`. -/
theorem paren_result_discarded_returns_none :
    interpret 100 "(7 + 3) * 2" = .ok Option.none ∧
    interpret 100 "((1 + 2) * (3 + 4))" = .ok Option.none :=
  ⟨by decide, by decide⟩

/-- Claim C3, counterexample: `Evaluate("1 + 2 3")` does not yield a
`SyntaxError`; it returns the numeric value `3`.  No caller ever checks
the leftover look-ahead token. -/
theorem trailing_garbage_yields_value_not_error :
    interpret 100 "1 + 2 3" = .ok (some (PyNum.ofNat 3)) := by decide

/-- Claim C3, amended: no trailing-token check exists; after `expr`
returns, a leftover non-`EndOfInput` token is silently ignored and the
value of the consumed prefix is returned, so `Evaluate("1 + 2 3")` gives
the same result as `Evaluate("1 + 2")`, namely `3`. -/
theorem trailing_garbage_ignored :
    interpret 100 "1 + 2 3" = interpret 100 "1 + 2" ∧
    interpret 100 "1 + 2" = .ok (some (PyNum.ofNat 3)) :=
  ⟨by decide, by decide⟩

/-- Claim C4 (code bug): the claim says zero-length and whitespace-only
input never fail with an out-of-bounds access and that tokenization
reaches `EndOfInput`.  In fact `Evaluate("")` raises `IndexError` at
`Lexer.__init__` (`self.user_input[0]` on an empty string — precisely an
out-of-bounds read) and `Evaluate(" ")` raises `AttributeError` in
`get_token` (`None.isdigit()` after `skip_whitespace` runs off the end).
The last conjunct proves the part of the claim that does hold: once the
cursor is exhausted (`current_char` is `None` with `pos` at or past the
end), `get_token` returns the `EOF` token with the state unchanged, so
repeated requests keep yielding `EndOfInput`. -/
theorem empty_and_blank_input_crash :
    interpret 100 "" = .error .indexError ∧
    interpret 100 " " = .error .attributeError ∧
    ∀ l : Lexer, l.current_char = Option.none → l.user_input.length ≤ l.pos →
      l.get_token = .ok (⟨TokenTypes.EOF, TokenValue.none⟩, l) := by
  refine ⟨by decide, by decide, ?_⟩
  intro l h1 h2
  unfold Lexer.get_token
  rw [h1]
  simp [h2]

/-- Witness for `empty_and_blank_input_crash`: the exhausted cursor of the
one-character input `"1"` keeps yielding the `EOF` token. -/
theorem empty_and_blank_input_crash_witness :
    Lexer.get_token ⟨['1'], 1, Option.none⟩ =
      .ok (⟨TokenTypes.EOF, TokenValue.none⟩, ⟨['1'], 1, Option.none⟩) :=
  empty_and_blank_input_crash.2.2 ⟨['1'], 1, Option.none⟩ rfl (by decide)

/-- Claim C5 (code bug): the claim says `Evaluate("  2+   3 ")` equals
`Evaluate("2+3")`.  In fact `Evaluate("2+3")` returns `5`, while the
trailing blank in `"  2+   3 "` makes `get_token` call `isdigit` on
`None` — `skip_whitespace` consumes the final blank and `get_token` does
not re-check for end of input — so evaluation raises `AttributeError`. -/
theorem trailing_whitespace_crashes_evaluation :
    interpret 100 "  2+   3 " = .error .attributeError ∧
    interpret 100 "2+3" = .ok (some (PyNum.ofNat 5)) :=
  ⟨by decide, by decide⟩

/-- Claim C6 (code bug): the claim says `Evaluate("10 - 2 - 3") = 5` and
`Evaluate("20 / 2 / 5") = 2`.  The subtraction example holds (left
associativity in the `expr` loop gives `5`, not `11`), but
`"20 / 2 / 5"` is a single `term`: the division chain is computed
left-to-right inside `term` (yielding `2`) and then discarded by the early
return of `expr`, which yields Python `None` instead. -/
theorem left_assoc_subtraction_holds_division_result_discarded :
    interpret 100 "10 - 2 - 3" = .ok (some (PyNum.ofNat 5)) ∧
    interpret 100 "20 / 2 / 5" = .ok Option.none :=
  ⟨by decide, by decide⟩

/-- Claim C7 (confirmed): multiplication binds tighter than addition:
`Evaluate("7 + 3 * 2")` returns `13`, not `20`. -/
theorem multiplication_binds_tighter_than_addition :
    interpret 100 "7 + 3 * 2" = .ok (some (PyNum.ofNat 13)) ∧
    interpret 100 "7 + 3 * 2" ≠ .ok (some (PyNum.ofNat 20)) :=
  ⟨by decide, by decide⟩

/-- Claim C8 (code bug): the claim says an unrecognized character yields a
`LexicalError`.  In fact the `while` loop of `get_token` neither consumes
the offending character nor reaches its `raise` (which sits after the
loop, reachable only when `current_char` is `None`): at the letter `a` the
loop body changes nothing and the loop repeats forever.  The model marks
that provable divergence `.infiniteLoop`; the second conjunct pinpoints
the looping `get_token` call itself, at the lexer state whose cursor
stands on the `a` of `"1 + a"`. -/
theorem unrecognized_char_never_returns :
    interpret 100 "1 + a" = .error .infiniteLoop ∧
    Lexer.get_token ⟨"1 + a".data, 4, some 'a'⟩ = .error .infiniteLoop :=
  ⟨by decide, by decide⟩

/-- Claim C9 (code bug): the claim says `factor` fails with a
`SyntaxError` when the look-ahead is neither `Integer` nor `LeftParen`.
In fact `factor` has no error branch: it falls off the end and returns
Python `None`.  For `"+ 3"` the failure surfaces only later as a
`TypeError` when `expr` computes `None + 3`; for `")"` evaluation
completes with no error at all, returning `None`. -/
theorem factor_fallthrough_returns_none_not_error :
    interpret 100 "+ 3" = .error .typeError ∧
    interpret 100 ")" = .ok Option.none :=
  ⟨by decide, by decide⟩

/-- Claim C10 (confirmed): whenever the look-ahead after the first `term`
is `EndOfInput` — i.e. the whole text was a single term, such as a lone
integer literal or an outermost `*`, `/` or parenthesized expression —
`expr` takes the early-return branch and yields Python `None` instead of
the term's value; concretely `Evaluate("5")`, `Evaluate("(7 + 3) * 2")`
and `Evaluate("3 * 4")` all return `None`. -/
theorem expr_early_return_on_eof :
    (∀ (fuel : Nat) (i : Interpreter) (v : Option PyNum) (i' : Interpreter),
        term fuel i = .ok (v, i') → i'.current_token.token_type = TokenTypes.EOF →
        expr (fuel + 1) i = .ok (Option.none, i')) ∧
    interpret 100 "5" = .ok Option.none ∧
    interpret 100 "(7 + 3) * 2" = .ok Option.none ∧
    interpret 100 "3 * 4" = .ok Option.none := by
  refine ⟨?_, by decide, by decide, by decide⟩
  intro fuel i v i' h hEOF
  unfold expr
  rw [h]
  simp [hEOF]

/-- Witness for `expr_early_return_on_eof`: the state reached after
lexing the first token of `"5"`; `term` consumes the lone literal, leaves
`EOF` in the look-ahead, and `expr` returns `None`. -/
theorem expr_early_return_on_eof_witness :
    expr 11 ⟨⟨['5'], 1, Option.none⟩, ⟨TokenTypes.INTEGER, TokenValue.int 5⟩⟩ =
      .ok (Option.none, ⟨⟨['5'], 1, Option.none⟩, ⟨TokenTypes.EOF, TokenValue.none⟩⟩) :=
  expr_early_return_on_eof.1 10
    ⟨⟨['5'], 1, Option.none⟩, ⟨TokenTypes.INTEGER, TokenValue.int 5⟩⟩
    (some (PyNum.ofNat 5))
    ⟨⟨['5'], 1, Option.none⟩, ⟨TokenTypes.EOF, TokenValue.none⟩⟩
    (by decide) (by decide)

end ArithInterp
